import Mathlib

/-!
Shallow embedding of the distributed coordination layer of the
cheshirecat-core repository: the `NetworkDiscovery` gossip component
(`cat/discovery/network.py`), the tenant registry operations of
`BillTheLizard` (`cat/looking_glass/bill_the_lizard.py`), and the
idle-session classification of `StrayCat`
(`cat/looking_glass/stray_cat.py`).

Timestamps are modelled as integers (seconds) for the discovery layer,
which compares `datetime` differences against whole-second timeouts, and
as rationals for the stray-cat layer, which uses `time.time()` floats.
-/

/-- Mirror of `cat/discovery/model/node_info.py` `NodeInfo`:
an entry of the peer directory. `last_seen` is a timestamp in seconds. -/
structure NodeInfo where
  node_id : String
  host : String
  port : Nat
  last_seen : Int
  metadata : List (String × String)
deriving DecidableEq, Repr

/-- Mirror of `cat/discovery/model/update_message.py` `UpdateMessage`. -/
structure UpdateMessage where
  update_id : String
  update_type : String
  payload : List (String × String)
  timestamp : Int
  source_node : String
deriving DecidableEq, Repr

/-- Default of the `NODE_TIMEOUT` environment variable in
`cat/discovery/network.py` (seconds). -/
def NODE_TIMEOUT : Int := 90

/-- State of `NetworkDiscovery` (`cat/discovery/network.py`): the local
node identity, the peer map `nodes` (a dict keyed by node id, modelled
as an association list in dict insertion order) and the
`processed_updates` de-duplication set (modelled as a duplicate-free
list, most recent first). -/
structure NetworkDiscovery where
  node_id : String
  host : String
  port : Nat
  nodes : List (String × NodeInfo)
  processed_updates : List String
  running : Bool
deriving DecidableEq, Repr

/-- Python `set.add`: insert an id unless already present. -/
def insertProcessed (u : String) (s : List String) : List String :=
  if u ∈ s then s else u :: s

/-- Python dict assignment `d[k] = v`: replace in place when the key is
present, otherwise append. -/
def updateAssoc (l : List (String × NodeInfo)) (k : String) (v : NodeInfo) :
    List (String × NodeInfo) :=
  if l.any (fun p => p.1 == k) then
    l.map (fun p => if p.1 == k then (k, v) else p)
  else
    l ++ [(k, v)]

/-- Result of `NetworkDiscovery.handle_received_update`: the returned
bool, the successor state, the local apply actions dispatched to the
type-specific handlers, and the outbound sends performed by
`_propagate_to_others`. -/
structure HandleResult where
  processed : Bool
  state : NetworkDiscovery
  applies : List UpdateMessage
  sends : List (NodeInfo × UpdateMessage)
deriving DecidableEq, Repr

/-- Dispatch step of `handle_received_update` (lines 194-199): the
update is handed to a type-specific handler exactly when its type is one
of the three recognized strings; otherwise nothing is applied locally. -/
def dispatchHandlers (m : UpdateMessage) : List UpdateMessage :=
  if m.update_type = "llm_update" ∨ m.update_type = "plugin_installed" ∨
      m.update_type = "plugin_uninstalled" then
    [m]
  else
    []

/-- Mirror of `NetworkDiscovery._propagate_to_others`: send the received
message unchanged to every known node whose id differs from the
message's source node. -/
def propagate_to_others (s : NetworkDiscovery) (m : UpdateMessage) :
    List (NodeInfo × UpdateMessage) :=
  ((s.nodes.map Prod.snd).filter (fun n => n.node_id ≠ m.source_node)).map
    (fun n => (n, m))

/-- Mirror of `NetworkDiscovery.handle_received_update`: a duplicate id
is discarded with no effect; a new id is inserted into
`processed_updates`, dispatched locally, and forwarded to the other
nodes. The over-capacity branch of the source
(`if len(self.processed_updates) > 1000: pass`) removes nothing, so no
eviction is modelled. -/
def handle_received_update (s : NetworkDiscovery) (m : UpdateMessage) :
    HandleResult :=
  if m.update_id ∈ s.processed_updates then
    { processed := false, state := s, applies := [], sends := [] }
  else
    let s1 : NetworkDiscovery :=
      { s with processed_updates := insertProcessed m.update_id s.processed_updates }
    { processed := true
      state := s1
      applies := dispatchHandlers m
      sends := propagate_to_others s1 m }

/-- Mirror of `NetworkDiscovery.propagate_update`: the freshly generated
uuid is supplied as the argument `u`; it is added to
`processed_updates` before the sends are built, the message is sent to
every known node, and `u` is returned. -/
def propagate_update (s : NetworkDiscovery) (u : String) (utype : String)
    (payload : List (String × String)) (now : Int) :
    String × NetworkDiscovery × List (NodeInfo × UpdateMessage) :=
  let s1 : NetworkDiscovery :=
    { s with processed_updates := insertProcessed u s.processed_updates }
  let m : UpdateMessage :=
    { update_id := u, update_type := utype, payload := payload,
      timestamp := now, source_node := s.node_id }
  (u, s1, (s1.nodes.map Prod.snd).map (fun n => (n, m)))

/-- Mirror of the heartbeat-processing branch of
`NetworkDiscovery._heartbeat_receiver`: a heartbeat from a foreign node
id writes a fresh `NodeInfo` with `last_seen = now` into the peer map. -/
def handle_heartbeat (s : NetworkDiscovery) (sender_id sender_host : String)
    (sender_port : Nat) (now : Int) (version : String) : NetworkDiscovery :=
  if sender_id ≠ s.node_id then
    let info : NodeInfo :=
      { node_id := sender_id, host := sender_host, port := sender_port,
        last_seen := now, metadata := [("version", version)] }
    { s with nodes := updateAssoc s.nodes sender_id info }
  else
    s

/-- Mirror of one sweep of `NetworkDiscovery._cleanup_dead_nodes`:
delete every node with `now - last_seen > NODE_TIMEOUT`. -/
def cleanup_dead_nodes (s : NetworkDiscovery) (now : Int) : NetworkDiscovery :=
  { s with nodes := s.nodes.filter (fun p => decide (now - p.2.last_seen ≤ NODE_TIMEOUT)) }

/-- Mirror of `NetworkDiscovery.get_active_nodes`: a copy of the values
of the peer map, with no filtering of its own. -/
def get_active_nodes (s : NetworkDiscovery) : List NodeInfo :=
  s.nodes.map Prod.snd

/-- One operation of the discovery component, for reasoning about
arbitrary interleavings of receives, publishes, heartbeats and cleanup
sweeps. -/
inductive NetOp where
  | recv (m : UpdateMessage)
  | prop (u utype : String) (payload : List (String × String)) (now : Int)
  | heartbeat (sender_id sender_host : String) (sender_port : Nat) (now : Int) (version : String)
  | cleanup (now : Int)
deriving DecidableEq, Repr

/-- Apply one `NetOp` to a `NetworkDiscovery` state. -/
def applyOp (s : NetworkDiscovery) : NetOp → NetworkDiscovery
  | .recv m => (handle_received_update s m).state
  | .prop u utype payload now => (propagate_update s u utype payload now).2.1
  | .heartbeat sender_id sender_host sender_port now version =>
      handle_heartbeat s sender_id sender_host sender_port now version
  | .cleanup now => cleanup_dead_nodes s now

/-- Apply a sequence of operations left to right. -/
def applyOps (s : NetworkDiscovery) (ops : List NetOp) : NetworkDiscovery :=
  ops.foldl applyOp s

/-- Once an id is in the de-duplication set, no operation of the source
ever removes it: the set only grows. -/
theorem mem_processed_applyOp (s : NetworkDiscovery) (op : NetOp) (u : String)
    (h : u ∈ s.processed_updates) : u ∈ (applyOp s op).processed_updates := by
  cases op with
  | recv m =>
      simp only [applyOp, handle_received_update]
      split
      · exact h
      · simp only [insertProcessed]
        split
        · exact h
        · exact List.mem_cons_of_mem _ h
  | prop u2 utype payload now =>
      simp only [applyOp, propagate_update, insertProcessed]
      split
      · exact h
      · exact List.mem_cons_of_mem _ h
  | heartbeat sender_id sender_host sender_port now version =>
      simp only [applyOp, handle_heartbeat]
      split <;> exact h
  | cleanup now =>
      exact h

/-- Monotonicity of the de-duplication set along any operation trace. -/
theorem mem_processed_applyOps (s : NetworkDiscovery) (ops : List NetOp) (u : String)
    (h : u ∈ s.processed_updates) : u ∈ (applyOps s ops).processed_updates := by
  induction ops generalizing s with
  | nil => exact h
  | cons op rest ih => exact ih _ (mem_processed_applyOp s op u h)

/-- Initial state of `NetworkDiscovery.__init__` with a given node id
and the constructor defaults. -/
def initND (nid : String) : NetworkDiscovery :=
  { node_id := nid, host := "0.0.0.0", port := 8000, nodes := [],
    processed_updates := [], running := false }

/-- Inserting an id makes it a member of the de-duplication set. -/
theorem mem_insertProcessed_self (u : String) (s : List String) :
    u ∈ insertProcessed u s := by
  unfold insertProcessed
  split
  · assumption
  · exact List.mem_cons_self u s

/-- C5: an update whose id is already in the de-duplication set is
discarded by `handle_received_update`: it returns False, leaves the
state unchanged, applies nothing locally, and sends nothing. -/
theorem duplicate_update_discarded_no_side_effect (s : NetworkDiscovery)
    (m : UpdateMessage) (h : m.update_id ∈ s.processed_updates) :
    handle_received_update s m =
      { processed := false, state := s, applies := [], sends := [] } := by
  simp [handle_received_update, h]

/-- Concrete state for the C5 witness: one already-processed id. -/
def sDup : NetworkDiscovery :=
  { initND "n1" with processed_updates := ["u1"] }

/-- Concrete duplicate message for the C5 witness. -/
def mDup : UpdateMessage :=
  { update_id := "u1", update_type := "llm_update", payload := [],
    timestamp := 7, source_node := "n9" }

/-- Witness for C5 at a concrete duplicate message. -/
theorem duplicate_update_discarded_witness :
    handle_received_update sDup mDup =
      { processed := false, state := sDup, applies := [], sends := [] } :=
  duplicate_update_discarded_no_side_effect sDup mDup (by decide)

/-- C4: `propagate_update` returns the generated id, records it in the
local de-duplication set, and after any further trace of discovery
operations a received message bearing that id is discarded with no
state change, no local application and no forwarding. -/
theorem propagate_then_self_receive_noop (s : NetworkDiscovery) (u utype : String)
    (payload : List (String × String)) (now : Int) (ops : List NetOp)
    (m : UpdateMessage) (hm : m.update_id = u) :
    (propagate_update s u utype payload now).1 = u ∧
    u ∈ (propagate_update s u utype payload now).2.1.processed_updates ∧
    handle_received_update (applyOps (propagate_update s u utype payload now).2.1 ops) m =
      { processed := false,
        state := applyOps (propagate_update s u utype payload now).2.1 ops,
        applies := [], sends := [] } := by
  have hmem : u ∈ (propagate_update s u utype payload now).2.1.processed_updates := by
    simp only [propagate_update]
    exact mem_insertProcessed_self u s.processed_updates
  have hmem2 : m.update_id ∈
      (applyOps (propagate_update s u utype payload now).2.1 ops).processed_updates := by
    rw [hm]
    exact mem_processed_applyOps _ ops u hmem
  exact ⟨rfl, hmem, by simp [handle_received_update, hmem2]⟩

/-- Witness for C4: a concrete publish followed by a cleanup sweep and a
heartbeat, then the echoed message comes back and is filtered. -/
theorem propagate_then_self_receive_noop_witness :
    (propagate_update (initND "n1") "uX" "llm_update" [] 0).1 = "uX" ∧
    "uX" ∈ (propagate_update (initND "n1") "uX" "llm_update" [] 0).2.1.processed_updates ∧
    handle_received_update
        (applyOps (propagate_update (initND "n1") "uX" "llm_update" [] 0).2.1
          [NetOp.heartbeat "n2" "h2" 8001 3 "1.0.0", NetOp.cleanup 5])
        { update_id := "uX", update_type := "llm_update", payload := [],
          timestamp := 9, source_node := "n1" } =
      { processed := false,
        state := applyOps (propagate_update (initND "n1") "uX" "llm_update" [] 0).2.1
          [NetOp.heartbeat "n2" "h2" 8001 3 "1.0.0", NetOp.cleanup 5],
        applies := [], sends := [] } :=
  propagate_then_self_receive_noop (initND "n1") "uX" "llm_update" [] 0
    [NetOp.heartbeat "n2" "h2" 8001 3 "1.0.0", NetOp.cleanup 5]
    { update_id := "uX", update_type := "llm_update", payload := [],
      timestamp := 9, source_node := "n1" } rfl

/-- Concrete discovery state knowing one foreign peer, used for C3 and C6. -/
def sPeer : NetworkDiscovery :=
  handle_heartbeat (initND "n1") "n2" "h2" 8001 0 "1.0.0"

/-- Concrete new update originated by a third node, used for C3. -/
def mNew : UpdateMessage :=
  { update_id := "u-ext", update_type := "llm_update", payload := [],
    timestamp := 50, source_node := "n3" }

/-- C3 counterexample: handling a new received update does produce
outbound propagation — `_propagate_to_others` forwards it to the known
peer, so the sends list of the handler is nonempty. -/
theorem received_update_is_forwarded_counterexample :
    (handle_received_update sPeer mNew).processed = true ∧
    (handle_received_update sPeer mNew).sends ≠ [] := by
  constructor
  · rfl
  · decide

/-- C3 amended: a new received update is applied locally and forwarded
unchanged (same message, same update id) to exactly the known nodes
whose id differs from the message's source node; no fresh message is
constructed and `propagate_update` is not invoked. -/
theorem received_update_forwarded_to_all_but_source (s : NetworkDiscovery)
    (m : UpdateMessage) (h : m.update_id ∉ s.processed_updates) :
    (handle_received_update s m).processed = true ∧
    (∀ p ∈ (handle_received_update s m).sends, p.2 = m ∧ p.1.node_id ≠ m.source_node) ∧
    (∀ q ∈ s.nodes, q.2.node_id ≠ m.source_node →
      (q.2, m) ∈ (handle_received_update s m).sends) := by
  refine ⟨by simp [handle_received_update, h], ?_, ?_⟩
  · intro p hp
    simp only [handle_received_update, if_neg h, propagate_to_others,
      List.mem_map, List.mem_filter] at hp
    obtain ⟨n, ⟨_, hn⟩, hpeq⟩ := hp
    subst hpeq
    exact ⟨rfl, by simpa using hn⟩
  · intro q hq hne
    simp only [handle_received_update, if_neg h, propagate_to_others]
    refine List.mem_map_of_mem _ ?_
    rw [List.mem_filter]
    exact ⟨List.mem_map_of_mem Prod.snd hq, by simpa using hne⟩

/-- Witness for the amended C3 at the concrete peer state. -/
theorem received_update_forwarded_witness :
    (handle_received_update sPeer mNew).processed = true ∧
    (∀ p ∈ (handle_received_update sPeer mNew).sends,
      p.2 = mNew ∧ p.1.node_id ≠ mNew.source_node) ∧
    (∀ q ∈ sPeer.nodes, q.2.node_id ≠ mNew.source_node →
      (q.2, mNew) ∈ (handle_received_update sPeer mNew).sends) :=
  received_update_forwarded_to_all_but_source sPeer mNew (by decide)

/-- Value of the single peer record of `sPeer`. -/
def peerNode : NodeInfo :=
  { node_id := "n2", host := "h2", port := 8001, last_seen := 0,
    metadata := [("version", "1.0.0")] }

/-- C6 counterexample: at current time 91 the peer of `sPeer` was last
seen 91 seconds ago, which exceeds `NODE_TIMEOUT = 90`, yet
`get_active_nodes` still returns it — the accessor does no time
filtering of its own. -/
theorem get_active_nodes_returns_stale_counterexample :
    get_active_nodes sPeer = [peerNode] ∧ (91 : Int) - peerNode.last_seen > NODE_TIMEOUT := by
  constructor
  · decide
  · decide

/-- C6 amended: `get_active_nodes` is an unfiltered copy of the peer
map; the timeout is enforced only by the periodic
`_cleanup_dead_nodes` sweep, so immediately after a sweep at time `now`
every returned peer satisfies `now - last_seen ≤ NODE_TIMEOUT`. -/
theorem active_nodes_bounded_after_cleanup (s : NetworkDiscovery) (now : Int)
    (n : NodeInfo) (h : n ∈ get_active_nodes (cleanup_dead_nodes s now)) :
    now - n.last_seen ≤ NODE_TIMEOUT := by
  simp only [get_active_nodes, cleanup_dead_nodes, List.mem_map,
    List.mem_filter] at h
  obtain ⟨p, ⟨_, hle⟩, hpn⟩ := h
  subst hpn
  simpa using hle

/-- Witness for the amended C6: after a sweep at time 50 the remaining
peer is within the timeout. -/
theorem active_nodes_bounded_after_cleanup_witness :
    (50 : Int) - peerNode.last_seen ≤ NODE_TIMEOUT :=
  active_nodes_bounded_after_cleanup sPeer 50 peerNode (by decide)

/-- Distinct update-id generator used to drive the de-duplication set:
the id of index `i` is a string of `i` repeated characters. -/
def uid (i : Nat) : String :=
  String.mk (List.replicate i 'a')

/-- Distinctness of the generated ids. -/
theorem uid_inj {i j : Nat} (h : uid i = uid j) : i = j := by
  have hlen : (List.replicate i 'a').length = (List.replicate j 'a').length := by
    have := congrArg (fun s => s.data.length) h
    simpa [uid] using this
  simpa using hlen

/-- A received message carrying a given update id. -/
def recvMsg (u : String) : UpdateMessage :=
  { update_id := u, update_type := "llm_update", payload := [],
    timestamp := 0, source_node := "nX" }

/-- Trace that receives `n` distinct update ids in order. -/
def fillOps (n : Nat) : List NetOp :=
  (List.range n).map (fun i => NetOp.recv (recvMsg (uid i)))

/-- State reached from a fresh node after receiving `n` distinct ids. -/
def fillState (n : Nat) : NetworkDiscovery :=
  applyOps (initND "n1") (fillOps n)

/-- After receiving `n` distinct ids the de-duplication set holds
exactly those `n` ids: nothing is ever evicted. -/
theorem fillState_processed (n : Nat) :
    (fillState n).processed_updates = ((List.range n).map uid).reverse := by
  induction n with
  | zero => rfl
  | succ n ih =>
      have hnotmem : uid n ∉ ((List.range n).map uid).reverse := by
        rw [List.mem_reverse]
        intro hmem
        obtain ⟨i, hi, hiu⟩ := List.mem_map.mp hmem
        have hin : i = n := uid_inj hiu
        subst hin
        exact absurd (List.mem_range.mp hi) (lt_irrefl i)
      have hops : fillOps (n + 1) = fillOps n ++ [NetOp.recv (recvMsg (uid n))] := by
        simp [fillOps, List.range_succ]
      have hstep : fillState (n + 1) = applyOp (fillState n) (NetOp.recv (recvMsg (uid n))) := by
        rw [fillState, hops, applyOps, List.foldl_append]
        rfl
      rw [hstep]
      simp only [applyOp, handle_received_update, recvMsg]
      rw [if_neg (by rw [ih]; exact hnotmem)]
      simp only [insertProcessed]
      rw [ih, if_neg hnotmem]
      simp [List.range_succ]

/-- C1 (code bug): after 1001 distinct update ids are handled, the
de-duplication set holds more than 1000 entries and the
oldest-inserted id is still present — the over-capacity branch of
`handle_received_update` evicts nothing. -/
theorem dedup_set_exceeds_capacity_without_eviction :
    (fillState 1001).processed_updates.length = 1001 ∧
    uid 0 ∈ (fillState 1001).processed_updates := by
  constructor
  · rw [fillState_processed]
    simp
  · rw [fillState_processed, List.mem_reverse]
    exact List.mem_map_of_mem uid (List.mem_range.mpr (by omega))

/-- Fragment of a `CheshireCat` as touched by
`NetworkDiscovery._handle_llm_update`: the `lizard` back-reference
(whose presence re-triggers network propagation) and the selected
language model. The reference is an opaque string token. -/
structure CCatNet where
  lizard : Option String
  llm_name : String
deriving DecidableEq, Repr

/-- Mirror of the apply block of `NetworkDiscovery._handle_llm_update`
(network.py lines 223-232): save `ccat.lizard`, set it to `None`, call
`replace_llm` — whose success or failure is the oracle argument
`raises` — and execute the restoring assignment only when the call
returns; the surrounding `except` clause swallows a raised exception
after logging, so on the raising path execution resumes with `lizard`
still `None`. -/
def handle_llm_update_apply (ccat : CCatNet) (language_model_name : String)
    (raises : Bool) : CCatNet :=
  let c1 : CCatNet := { ccat with lizard := none }
  if raises then
    c1
  else
    { lizard := ccat.lizard, llm_name := language_model_name }

/-- Plugin-manager fragment touched by
`NetworkDiscovery._handle_plugin_installed`: the install-finished
callback, modelled as an opaque token naming the installed function. -/
structure PluginManagerNet where
  install_finished_callback : String
deriving DecidableEq, Repr

/-- Mirror of the registry branch of
`NetworkDiscovery._handle_plugin_installed` (network.py lines 270-278):
save the callback, swap in the local-only notifier, run
`install_plugin` (failure given by the oracle `raises`), and restore
the callback only when the install returns; the surrounding `except`
swallows a raised exception after logging. -/
def handle_plugin_installed_apply (pm : PluginManagerNet) (raises : Bool) :
    PluginManagerNet :=
  let pm1 : PluginManagerNet := { install_finished_callback := "notify_local_only" }
  if raises then
    pm1
  else
    { install_finished_callback := pm.install_finished_callback }

/-- C2 (code bug): when the apply call raises, the suppression is not
restored — `ccat.lizard` stays `None` and the swapped plugin callback
stays the local-only notifier — while on the non-raising path both are
restored to their original values. -/
theorem llm_update_suppression_not_restored_on_raise :
    (handle_llm_update_apply ⟨some "lizard-ref", "old-llm"⟩ "new-llm" true).lizard = none ∧
    (handle_llm_update_apply ⟨some "lizard-ref", "old-llm"⟩ "new-llm" false).lizard =
      some "lizard-ref" ∧
    (handle_plugin_installed_apply ⟨"network-notifier"⟩ true).install_finished_callback =
      "notify_local_only" ∧
    (handle_plugin_installed_apply ⟨"network-notifier"⟩ false).install_finished_callback =
      "network-notifier" := by
  refine ⟨rfl, rfl, rfl, rfl⟩

/-- Mirror of the tenant loop of `BillTheLizard.shutdown`
(cat/looking_glass/bill_the_lizard.py lines 402-403): await each
tenant's `shutdown()` in order with no exception handling. A tenant is
a pair of its id and a teardown oracle, `true` meaning its `shutdown()`
raises. Returns the ids successfully torn down and the id whose
teardown raised, if any. -/
def shutdown_loop : List (String × Bool) → List String × Option String
  | [] => ([], none)
  | (cid, raises) :: rest =>
      if raises then
        ([], some cid)
      else
        let r := shutdown_loop rest
        (cid :: r.1, r.2)

/-- Mirror of `BillTheLizard.shutdown` over the tenant map: the map is
reassigned to `{}` only after the loop completes (line 404); a raised
teardown exception propagates to the caller first, leaving the map
untouched. Result: (tenants torn down, final tenant map, escaped
exception). -/
def lizard_shutdown (cats : List (String × Bool)) :
    List String × List (String × Bool) × Option String :=
  let r := shutdown_loop cats
  match r.2 with
  | some cid => (r.1, cats, some cid)
  | none => (r.1, [], none)

/-- Concrete tenant map for C7: tenant `b`'s teardown raises. -/
def catsC7 : List (String × Bool) := [("a", false), ("b", true), ("c", false)]

/-- C7 (code bug): when tenant `b`'s teardown raises, only `a` was torn
down, the exception escapes `shutdown`, tenant `c` is never torn down,
and the tenant map still holds all three tenants instead of ending
empty. -/
theorem shutdown_aborts_on_failing_teardown :
    lizard_shutdown catsC7 = (["a"], catsC7, some "b") := by
  rfl

/-- Modelled from the spec: the reserved system id (`DEFAULT_SYSTEM_KEY`
imported from `cat.db.database`, a module not present under src/),
an opaque distinguished string constant. -/
def DEFAULT_SYSTEM_KEY : String := "system"

/-- Mirror of `BillTheLizard.get_cheshire_cat`: dict lookup in
`__cheshire_cats`, returning `None` when absent. Tenant handles are
opaque numeric tokens whose equality is object identity. -/
def get_cheshire_cat (m : List (String × Nat)) (agent_id : String) : Option Nat :=
  match m.find? (fun p => p.1 == agent_id) with
  | some p => some p.2
  | none => none

/-- Mirror of `BillTheLizard.get_or_create_cheshire_cat`
(cat/looking_glass/bill_the_lizard.py lines 336-346): return the
existing handle when present; otherwise reject the reserved system id
with a `ValueError` (the `.error` case, carrying the message) or
register the freshly built handle `fresh`. -/
def get_or_create_cheshire_cat (m : List (String × Nat)) (agent_id : String)
    (fresh : Nat) : Except String (Nat × List (String × Nat)) :=
  match get_cheshire_cat m agent_id with
  | some current_cat => .ok (current_cat, m)
  | none =>
      if agent_id = DEFAULT_SYSTEM_KEY then
        .error (DEFAULT_SYSTEM_KEY ++ " is a reserved name for agents")
      else
        .ok (fresh, m ++ [(agent_id, fresh)])

/-- Registration never inserts the reserved system id: the invariant
supporting the reserved-key hypothesis of the C8 theorem. -/
theorem reserved_key_never_registered (m : List (String × Nat)) (agent_id : String)
    (fresh c : Nat) (m2 : List (String × Nat))
    (hres : get_cheshire_cat m DEFAULT_SYSTEM_KEY = none)
    (hok : get_or_create_cheshire_cat m agent_id fresh = .ok (c, m2)) :
    get_cheshire_cat m2 DEFAULT_SYSTEM_KEY = none := by
  unfold get_or_create_cheshire_cat at hok
  cases hfind : get_cheshire_cat m agent_id with
  | some cur =>
      rw [hfind] at hok
      cases hok
      exact hres
  | none =>
      rw [hfind] at hok
      by_cases hkey : agent_id = DEFAULT_SYSTEM_KEY
      · rw [if_pos hkey] at hok
        cases hok
      · rw [if_neg hkey] at hok
        cases hok
        unfold get_cheshire_cat at hres ⊢
        rw [List.find?_append]
        cases hfm : m.find? (fun p => p.1 == DEFAULT_SYSTEM_KEY) with
        | some p => rw [hfm] at hres; cases hres
        | none =>
            have hb : (agent_id == DEFAULT_SYSTEM_KEY) = false :=
              beq_eq_false_iff_ne.mpr hkey
            simp [List.find?, hb]

/-- C8: creating the reserved system id fails with the reserved-name
`ValueError` and performs no registration, and a lookup of an already
registered non-reserved tenant returns the identical existing handle
with the map unchanged. -/
theorem get_or_create_reserved_and_existing (m : List (String × Nat)) (fresh : Nat)
    (agent_id : String) (c : Nat)
    (hres : get_cheshire_cat m DEFAULT_SYSTEM_KEY = none)
    (hne : agent_id ≠ DEFAULT_SYSTEM_KEY)
    (hex : get_cheshire_cat m agent_id = some c) :
    get_or_create_cheshire_cat m DEFAULT_SYSTEM_KEY fresh =
      .error (DEFAULT_SYSTEM_KEY ++ " is a reserved name for agents") ∧
    get_or_create_cheshire_cat m agent_id fresh = .ok (c, m) := by
  constructor
  · simp [get_or_create_cheshire_cat, hres]
  · simp [get_or_create_cheshire_cat, hex]

/-- Concrete tenant map for the C8 witness. -/
def mapC8 : List (String × Nat) := [("t1", 11)]

/-- Witness for C8 at a concrete one-tenant map. -/
theorem get_or_create_reserved_and_existing_witness :
    get_or_create_cheshire_cat mapC8 DEFAULT_SYSTEM_KEY 99 =
      .error (DEFAULT_SYSTEM_KEY ++ " is a reserved name for agents") ∧
    get_or_create_cheshire_cat mapC8 "t1" 99 = .ok (11, mapC8) :=
  get_or_create_reserved_and_existing mapC8 99 "t1" 11 (by decide) (by decide) (by decide)

/-- Mirror of `StrayCat.is_idle` (stray_cat.py lines 805-810):
`__last_message_time` is `None` until the first message; the Python
truthiness test `not self.__last_message_time` is also true for the
timestamp `0`, and both cases yield not-idle; otherwise the session is
idle exactly when `time.time() - last >= timeout`. Times are rationals
standing for `time.time()` floats. -/
def is_idle (last_message_time : Option ℚ) (now timeout : ℚ) : Bool :=
  match last_message_time with
  | none => false
  | some t => if t = 0 then false else decide (now - t ≥ timeout)

/-- Per-user session fragment relevant to idle eviction. -/
structure StraySession where
  user_id : String
  last_message_time : Option ℚ
deriving DecidableEq, Repr

/-- Modelled from the spec: the SessionReaper sweep
(`job_on_idle_strays` in the `cat.jobs` module, which is not present
under src/) — every session idle at sweep time is evicted and every
other session is retained, idleness being the source `is_idle` test. -/
def reaper_sweep (sessions : List StraySession) (now timeout : ℚ) :
    List StraySession :=
  sessions.filter (fun s => !(is_idle s.last_message_time now timeout))

/-- C9: a session with a recorded (positive) last-activity time is
classified idle exactly when `now - last >= timeout`; the sweep evicts
it in that case and retains it when `now - last < timeout`. -/
theorem reaper_evicts_iff_idle_threshold (sessions : List StraySession)
    (now timeout : ℚ) (s : StraySession) (t : ℚ)
    (hl : s.last_message_time = some t) (hpos : 0 < t) :
    (is_idle s.last_message_time now timeout = true ↔ now - t ≥ timeout) ∧
    (now - t ≥ timeout → s ∉ reaper_sweep sessions now timeout) ∧
    (now - t < timeout → s ∈ sessions → s ∈ reaper_sweep sessions now timeout) := by
  have htz : t ≠ 0 := ne_of_gt hpos
  have hidle : is_idle s.last_message_time now timeout = decide (now - t ≥ timeout) := by
    rw [hl]
    simp [is_idle, htz]
  refine ⟨by rw [hidle]; exact decide_eq_true_iff, ?_, ?_⟩
  · intro hthr hmem
    rw [reaper_sweep, List.mem_filter] at hmem
    rw [hidle] at hmem
    simp [hthr] at hmem
  · intro hthr hmem
    rw [reaper_sweep, List.mem_filter]
    refine ⟨hmem, ?_⟩
    rw [hidle]
    simp [not_le.mpr hthr]

/-- Session last active 61 seconds before the sweep at time 100. -/
def s61 : StraySession := { user_id := "u61", last_message_time := some 39 }

/-- Session last active 30 seconds before the sweep at time 100. -/
def s30 : StraySession := { user_id := "u30", last_message_time := some 70 }

/-- Witness for C9: with a 60-second timeout and a sweep at time 100,
the session last active 61 seconds ago is evicted and the one last
active 30 seconds ago is retained. -/
theorem reaper_evicts_iff_idle_threshold_witness :
    s61 ∉ reaper_sweep [s61, s30] 100 60 ∧ s30 ∈ reaper_sweep [s61, s30] 100 60 :=
  ⟨(reaper_evicts_iff_idle_threshold [s61, s30] 100 60 s61 39 rfl
      (by norm_num)).2.1 (by norm_num),
   (reaper_evicts_iff_idle_threshold [s61, s30] 100 60 s30 70 rfl
      (by norm_num)).2.2 (by norm_num) (by simp [s61, s30])⟩

/-- C10: a session that has never recorded a message time is never
classified idle and is always retained by the reaper sweep. -/
theorem unset_last_message_never_idle (now timeout : ℚ)
    (sessions : List StraySession) (s : StraySession)
    (hl : s.last_message_time = none) :
    is_idle s.last_message_time now timeout = false ∧
    (s ∈ sessions → s ∈ reaper_sweep sessions now timeout) := by
  refine ⟨by rw [hl]; rfl, ?_⟩
  intro hmem
  rw [reaper_sweep, List.mem_filter]
  exact ⟨hmem, by rw [hl]; rfl⟩

/-- Session with no recorded message time yet, for the C10 witness. -/
def sFresh : StraySession := { user_id := "fresh", last_message_time := none }

/-- Witness for C10: however large the current time, the fresh session
is not idle and survives the sweep. -/
theorem unset_last_message_never_idle_witness :
    is_idle sFresh.last_message_time 1000000 60 = false ∧
    (sFresh ∈ [sFresh] → sFresh ∈ reaper_sweep [sFresh] 1000000 60) :=
  unset_last_message_never_idle 1000000 60 [sFresh] sFresh rfl
